import Mathlib

/-!
Shallow embedding of the folder-synchronization engine of `kslauncher`
(`src/main.rs`): the entry data model, the `Launcher::update` reconciliation
arms for watcher messages, the `FolderEventHandler::handle_event`
classification, the `get_icon` / `icon_to_rgba_image` icon-resolution
pipeline (OS calls abstracted as a success/failure oracle, with an explicit
ledger of acquired handles), and the `init_state` initial directory scan.
-/

/-- File paths; the engine only compares them for equality. -/
abbrev FsPath := String

/-- `image::Handle` produced by `image::Handle::from_pixels(width, height, buf)`:
a portable raster with its raw byte buffer. Bytes are modelled as `Nat`. -/
structure IconBitmap where
  width : Nat
  height : Nat
  pixels : List Nat
deriving Repr, DecidableEq

/-- One element of `Launcher::folder_state : Vec<io::Result<(PathBuf, image::Handle)>>`:
`Ok((path, icon))` is an item, `Err(e)` is a captured read failure. -/
inductive Entry where
  | item (path : FsPath) (icon : IconBitmap)
  | error (msg : String)
deriving Repr, DecidableEq

/-- `Entry.isItem` tests for the `Ok` variant. -/
def Entry.isItem : Entry → Bool
  | .item _ _ => true
  | .error _ => false

/-- `Entry.isError` tests for the `Err` variant. -/
def Entry.isError : Entry → Bool
  | .item _ _ => false
  | .error _ => true

/-- Whether an entry is an `Item` carrying exactly the path `p`. -/
def Entry.hasPath (e : Entry) (p : FsPath) : Bool :=
  match e with
  | .item q _ => q == p
  | .error _ => false

/-- The ordered folder state owned by the launcher. -/
abbrev FolderState := List Entry

/-- The `Message` enum of `src/main.rs` (all six constructors). -/
inductive Message where
  | openFile (p : FsPath)
  | newEntry (p : FsPath)
  | entryModified
  | removeEntry (p : FsPath)
  | openFolder
  | fileDropped (p : FsPath)
deriving Repr, DecidableEq

/-- The effect of `Launcher::update` on `folder_state`. `resolve` stands for
`get_icon` (resolution of a path to its icon at drain time).
`Message::NewEntry` pushes `Ok((file_path, icon))`; `Message::RemoveEntry`
retains entries whose path differs from the given one and all `Err` entries;
every other message arm leaves `folder_state` untouched. -/
def updateFolderState (resolve : FsPath → IconBitmap) (s : FolderState) :
    Message → FolderState
  | .newEntry p => s ++ [Entry.item p (resolve p)]
  | .removeEntry p => s.filter fun e =>
      match e with
      | .item q _ => q != p
      | .error _ => true
  | _ => s

/-! ## Watcher classification (`FolderEventHandler::handle_event`) -/

/-- `notify::event::RenameMode`. -/
inductive RenameMode where
  | any
  | toMode
  | fromMode
  | both
  | other
deriving Repr, DecidableEq

/-- `notify::event::ModifyKind`. The payloads of `Data`, `Metadata` and the
inner value of `Other` are never inspected by the handler, so they are
elided. -/
inductive ModifyKind where
  | any
  | data
  | metadata
  | name (mode : RenameMode)
  | other
deriving Repr, DecidableEq

/-- `notify::event::EventKind`. The payloads of `Access`, `Create` and
`Remove` are matched with `_` by the handler, so they are elided. -/
inductive EventKind where
  | any
  | access
  | create
  | modify (kind : ModifyKind)
  | remove
  | other
deriving Repr, DecidableEq

/-- A raw `notify::Event`: its kind and the affected paths. -/
structure FsEvent where
  kind : EventKind
  paths : List FsPath
deriving Repr, DecidableEq

/-- `FolderEventHandler::handle_event`, as the list of `Message`s the detached
publish task sends for one raw notification. `Err` notifications are ignored
(`if let Ok(event)`); `Create(_) | Modify(Name(To))` sends one `NewEntry` per
path; `Remove(_) | Modify(Name(From))` sends one `RemoveEntry` per path; every
other `Modify(_)` sends a single `EntryModified`; everything else sends
nothing. -/
def handle_event : Except String FsEvent → List Message
  | .error _ => []
  | .ok ev =>
    match ev.kind with
    | .create => ev.paths.map Message.newEntry
    | .modify (.name .toMode) => ev.paths.map Message.newEntry
    | .remove => ev.paths.map Message.removeEntry
    | .modify (.name .fromMode) => ev.paths.map Message.removeEntry
    | .modify _ => [Message.entryModified]
    | _ => []

/-! ## Icon resolution (`get_icon` and `icon_to_rgba_image`)

The Win32 calls are abstracted by an oracle recording which calls succeed.
The functions are modelled as state machines over a ledger of currently
acquired OS handles; a failed `unwrap`/`assert`/`unimplemented!` terminates
the call with a `panic` carrying the ledger at that moment (Rust panics here
unwind out of the call with no drop guards protecting the raw handles). -/

/-- The OS resources acquired during one icon resolution: the icon handle
from `IImageList::GetIcon`, the mask and color bitmaps from `GetIconInfo`,
and the screen device context from `GetDC`. -/
inductive OsHandle where
  | icon
  | mask
  | color
  | dc
deriving Repr, DecidableEq

/-- Outcome of one icon-resolution call: `panic` aborts the process with the
handles still held at that point; `ok` returns the bitmap together with the
handles still held at return. -/
inductive IconCall where
  | panic (held : List OsHandle)
  | ok (bmp : IconBitmap) (held : List OsHandle)
deriving Repr, DecidableEq

/-- Success/failure of each fallible call inside `icon_to_rgba_image`.
`dimsOk` covers the `i32::try_from`/`usize::try_from` conversions of
`bmWidth`/`bmHeight` and the `checked_mul` for the buffer size, all of which
`unwrap`. -/
structure GdiOracle where
  getIconInfoOk : Bool
  deleteMaskOk : Bool
  getObjectOk : Bool
  dimsOk : Bool
  getDCOk : Bool
  getDIBitsOk : Bool
  releaseDCOk : Bool
  deleteColorOk : Bool
deriving Repr, DecidableEq

/-- All GDI calls succeed. -/
def GdiOracle.allOk (o : GdiOracle) : Bool :=
  o.getIconInfoOk && o.deleteMaskOk && o.getObjectOk && o.dimsOk && o.getDCOk &&
    o.getDIBitsOk && o.releaseDCOk && o.deleteColorOk

/-- The BGRA→RGBA pass at the end of `icon_to_rgba_image`:
`for chunk in buf.chunks_exact_mut(4) { let [b, _, r, _] = chunk; mem::swap(b, r) }`.
Each complete 4-byte chunk has its bytes at offsets 0 and 2 exchanged; a
trailing incomplete chunk is left untouched, as `chunks_exact_mut` skips it. -/
def swapBR : List Nat → List Nat
  | b :: g :: r :: a :: rest => r :: g :: b :: a :: swapBR rest
  | l => l

/-- `icon_to_rgba_image(icon)`. `held` is the handle ledger at entry (the
caller holds the icon handle); `w`, `h` are the `bmWidth`/`bmHeight` the OS
reports via `GetObjectW`; `surface` is the BGRA byte buffer `GetDIBits`
writes (of length `w*h*4` per its contract). The call sequence and the
acquire/release points follow the source line by line:
`GetIconInfo` (acquires mask and color bitmaps), `DeleteObject(hbmMask)`,
`GetObjectW`, the size conversions, `GetDC` (acquires the DC), `GetDIBits`,
`ReleaseDC`, `DeleteObject(hbmColor)`, the BGRA→RGBA swap, and
`image::Handle::from_pixels(width, height, buf)`. -/
def icon_to_rgba_image (o : GdiOracle) (w h : Nat) (surface : List Nat)
    (held : List OsHandle) : IconCall :=
  if !o.getIconInfoOk then .panic held else
  let held := OsHandle.mask :: OsHandle.color :: held
  if !o.deleteMaskOk then .panic held else
  let held := held.erase OsHandle.mask
  if !o.getObjectOk then .panic held else
  if !o.dimsOk then .panic held else
  if !o.getDCOk then .panic held else
  let held := OsHandle.dc :: held
  if !o.getDIBitsOk then .panic held else
  if !o.releaseDCOk then .panic held else
  let held := held.erase OsHandle.dc
  if !o.deleteColorOk then .panic held else
  let held := held.erase OsHandle.color
  .ok ⟨w, h, swapBR surface⟩ held

/-- Success/failure of each fallible call inside `get_icon`, plus the GDI
oracle for the nested `icon_to_rgba_image`. `sysIconIndex` is whether
`SHGetFileInfoW` returned a nonzero system image list (the shell resolved an
icon index for the path). -/
structure ShellOracle where
  coInitOk : Bool
  sysIconIndex : Bool
  getImageListOk : Bool
  getIconOk : Bool
  destroyIconOk : Bool
  gdi : GdiOracle
deriving Repr, DecidableEq

/-- All shell and GDI calls succeed and the shell resolves an icon index. -/
def ShellOracle.allOk (o : ShellOracle) : Bool :=
  o.coInitOk && o.sysIconIndex && o.getImageListOk && o.getIconOk &&
    o.destroyIconOk && o.gdi.allOk

/-- `get_icon(file_path)`. Call order follows the source: `CoInitializeEx`
(`unwrap`), `SHGetFileInfoW` (returns the system image list value),
`SHGetImageList` (`unwrap`), then if the image list value is nonzero:
`IImageList::GetIcon` (`unwrap`, acquires the icon handle),
`icon_to_rgba_image`, `DestroyIcon` (`unwrap`, releases it); otherwise
`unimplemented!()` (a panic). -/
def get_icon (o : ShellOracle) (w h : Nat) (surface : List Nat) : IconCall :=
  if !o.coInitOk then .panic [] else
  if !o.getImageListOk then .panic [] else
  if o.sysIconIndex then
    if !o.getIconOk then .panic [] else
    match icon_to_rgba_image o.gdi w h surface [OsHandle.icon] with
    | .panic held => .panic held
    | .ok bmp held =>
      if !o.destroyIconOk then .panic held else
      .ok bmp (held.erase OsHandle.icon)
  else
    .panic []

/-! ## Initial scan (`init_state`) -/

/-- `init_state(flags)`. `folder` is `flags.folder`; `readDir` is the outcome
of `fs::read_dir(folder)` — on success a list of per-child outcomes, each
either the child's path or the `io::Error` message of that child's read
failure. The `fs::create_dir_all` result is discarded by the source
(`let _ = ...`), so it does not appear. Each readable child becomes
`Ok((path, get_icon(path)))`; each unreadable child becomes `Err(e)`; if the
directory itself cannot be read the state is the single entry `Err(e)`; with
no folder configured the state is empty. -/
def init_state (resolve : FsPath → IconBitmap) (folder : Option FsPath)
    (readDir : Except String (List (Except String FsPath))) : FolderState :=
  match folder with
  | none => []
  | some _ =>
    match readDir with
    | .ok children => children.map fun r =>
        match r with
        | .ok p => Entry.item p (resolve p)
        | .error e => Entry.error e
    | .error e => [Entry.error e]

/-- Whether a scanned child was readable (`r.is_ok()` on the
`io::Result<DirEntry>` yielded by `fs::read_dir`). -/
def isOkChild : Except String FsPath → Bool
  | .ok _ => true
  | .error _ => false

/-- A fixed resolver, used to instantiate universally quantified statements
at concrete inputs. -/
def constResolver : FsPath → IconBitmap := fun _ => ⟨1, 1, [0, 0, 0, 0]⟩

/-- A GDI oracle in which every call succeeds. -/
def allOkGdi : GdiOracle := ⟨true, true, true, true, true, true, true, true⟩

/-- A shell oracle in which the icon index resolves and every call succeeds. -/
def allOkShell : ShellOracle := ⟨true, true, true, true, true, allOkGdi⟩

/-! ## Helper lemmas -/

/-- A BGRA pixel as the OS writes it into the `GetDIBits` buffer. -/
structure BGRAPixel where
  b : Nat
  g : Nat
  r : Nat
  a : Nat
deriving Repr, DecidableEq

/-- The four bytes of a BGRA pixel in buffer order. -/
def BGRAPixel.bgraBytes (p : BGRAPixel) : List Nat := [p.b, p.g, p.r, p.a]

/-- The four bytes of the same pixel after the red/blue swap: offsets 0 and 2
exchanged, offsets 1 and 3 (green, alpha) unchanged. -/
def BGRAPixel.rgbaBytes (p : BGRAPixel) : List Nat := [p.r, p.g, p.b, p.a]

theorem swapBR_join (px : List BGRAPixel) :
    swapBR (px.map BGRAPixel.bgraBytes).flatten = (px.map BGRAPixel.rgbaBytes).flatten := by
  induction px with
  | nil => rfl
  | cons p rest ih =>
    simp [BGRAPixel.bgraBytes, BGRAPixel.rgbaBytes, swapBR] at ih ⊢
    exact ih

theorem rgba_join_length (px : List BGRAPixel) :
    ((px.map BGRAPixel.rgbaBytes).flatten).length = px.length * 4 := by
  induction px with
  | nil => rfl
  | cons p rest ih =>
    simp [BGRAPixel.rgbaBytes] at ih ⊢
    omega

/-- Either every GDI call succeeds and `icon_to_rgba_image` returns the
swapped surface with the handle ledger exactly as it was at entry (everything
it acquired released), or some call fails and it panics. -/
theorem icon_to_rgba_spec (o : GdiOracle) (w h : Nat) (surface : List Nat)
    (held : List OsHandle) :
    (o.allOk = true ∧
      icon_to_rgba_image o w h surface held = IconCall.ok ⟨w, h, swapBR surface⟩ held) ∨
    (o.allOk = false ∧ ∃ hd, icon_to_rgba_image o w h surface held = IconCall.panic hd) := by
  obtain ⟨c1, c2, c3, c4, c5, c6, c7, c8⟩ := o
  cases c1 <;> cases c2 <;> cases c3 <;> cases c4 <;> cases c5 <;> cases c6 <;> cases c7 <;>
    cases c8 <;> simp [GdiOracle.allOk, icon_to_rgba_image]

/-- Either every shell and GDI call succeeds and `get_icon` returns the
swapped surface with no handle held, or some call fails (or the shell cannot
resolve an icon index) and it panics. -/
theorem get_icon_spec (o : ShellOracle) (w h : Nat) (surface : List Nat) :
    (o.allOk = true ∧ get_icon o w h surface = IconCall.ok ⟨w, h, swapBR surface⟩ []) ∨
    (o.allOk = false ∧ ∃ hd, get_icon o w h surface = IconCall.panic hd) := by
  obtain ⟨c1, c2, c3, c4, c5, g⟩ := o
  rcases icon_to_rgba_spec g w h surface [OsHandle.icon] with ⟨hg, heq⟩ | ⟨hg, hd, heq⟩ <;>
    cases c1 <;> cases c2 <;> cases c3 <;> cases c4 <;> cases c5 <;>
      simp [ShellOracle.allOk, get_icon, hg, heq]

/-! ## Claims -/

/-- C1: applying a Created event (`Message::NewEntry`) appends exactly one
`Item` entry with that path and its resolved icon at the end of the state,
increasing the entry count by exactly one; there is no dedup check, so two
consecutive `Created(p)` with no intervening `Removed(p)` yield two entries
with path `p`. -/
theorem created_appends_item (resolve : FsPath → IconBitmap) (s : FolderState) (p : FsPath) :
    (updateFolderState resolve s (Message.newEntry p)).length = s.length + 1 ∧
    (updateFolderState resolve s (Message.newEntry p)).dropLast = s ∧
    (updateFolderState resolve s (Message.newEntry p)).getLast? =
      some (Entry.item p (resolve p)) ∧
    (updateFolderState resolve (updateFolderState resolve s (Message.newEntry p))
        (Message.newEntry p)).countP (fun e => e.hasPath p) =
      s.countP (fun e => e.hasPath p) + 2 := by
  refine ⟨?_, ?_, ?_, ?_⟩ <;>
    simp [updateFolderState, List.countP_append, Entry.hasPath, List.dropLast_concat]

/-- C2: applying a Removed event (`Message::RemoveEntry`) removes every `Item`
entry whose path equals the given path, keeps every other entry in order
(the result is a sublist of the old state containing each unaffected entry),
leaves `Error` entries unchanged, and is a no-op when no `Item` with that path
is present. -/
theorem removed_filters_path (resolve : FsPath → IconBitmap) (s : FolderState) (p : FsPath) :
    (∀ e ∈ updateFolderState resolve s (Message.removeEntry p), e.hasPath p = false) ∧
    List.Sublist (updateFolderState resolve s (Message.removeEntry p)) s ∧
    (∀ e ∈ s, e.hasPath p = false → e ∈ updateFolderState resolve s (Message.removeEntry p)) ∧
    (updateFolderState resolve s (Message.removeEntry p)).filter Entry.isError =
      s.filter Entry.isError ∧
    ((∀ e ∈ s, e.hasPath p = false) → updateFolderState resolve s (Message.removeEntry p) = s) := by
  refine ⟨?_, ?_, ?_, ?_, ?_⟩
  · intro e he
    rw [updateFolderState, List.mem_filter] at he
    cases e with
    | item q icon => simpa [Entry.hasPath] using he.2
    | error msg => simp [Entry.hasPath]
  · exact List.filter_sublist s
  · intro e he hnp
    rw [updateFolderState, List.mem_filter]
    refine ⟨he, ?_⟩
    cases e with
    | item q icon => simpa [Entry.hasPath] using hnp
    | error msg => simp
  · rw [updateFolderState, List.filter_filter]
    apply List.filter_congr
    intro e _
    cases e <;> simp [Entry.isError]
  · intro hall
    rw [updateFolderState, List.filter_eq_self]
    intro e he
    have := hall e he
    cases e with
    | item q icon => simpa [Entry.hasPath] using this
    | error msg => simp

/-- Witness for C2 at a concrete state: removing a path with no matching item
leaves the state unchanged. -/
theorem removed_filters_path_witness :
    updateFolderState constResolver [Entry.error "x"] (Message.removeEntry "a") =
      [Entry.error "x"] :=
  (removed_filters_path constResolver [Entry.error "x"] "a").2.2.2.2 (by decide)

/-- C3: a Modified event (`Message::EntryModified`) leaves the folder state
completely unchanged. -/
theorem modified_noop (resolve : FsPath → IconBitmap) (s : FolderState) :
    updateFolderState resolve s Message.entryModified = s := rfl

/-- C4: the watcher classifies raw notifications exactly as the source
matches: `Create` and `Modify(Name(To))` yield one `Created` per path,
`Remove` and `Modify(Name(From))` yield one `Removed` per path, any other
`Modify` yields exactly one path-less `Modified`, and every other kind
yields nothing. -/
theorem handle_event_classification (paths : List FsPath) :
    handle_event (Except.ok ⟨EventKind.create, paths⟩) = paths.map Message.newEntry ∧
    handle_event (Except.ok ⟨EventKind.modify (ModifyKind.name RenameMode.toMode), paths⟩) =
      paths.map Message.newEntry ∧
    handle_event (Except.ok ⟨EventKind.remove, paths⟩) = paths.map Message.removeEntry ∧
    handle_event (Except.ok ⟨EventKind.modify (ModifyKind.name RenameMode.fromMode), paths⟩) =
      paths.map Message.removeEntry ∧
    (∀ mk : ModifyKind, mk ≠ ModifyKind.name RenameMode.toMode →
      mk ≠ ModifyKind.name RenameMode.fromMode →
      handle_event (Except.ok ⟨EventKind.modify mk, paths⟩) = [Message.entryModified]) ∧
    handle_event (Except.ok ⟨EventKind.access, paths⟩) = [] ∧
    handle_event (Except.ok ⟨EventKind.any, paths⟩) = [] ∧
    handle_event (Except.ok ⟨EventKind.other, paths⟩) = [] := by
  refine ⟨rfl, rfl, rfl, rfl, ?_, rfl, rfl, rfl⟩
  intro mk h1 h2
  cases mk with
  | name mode => cases mode <;> first | rfl | exact absurd rfl h1 | exact absurd rfl h2
  | _ => rfl

/-- Witness for C4 at a concrete input: a content-change notification yields
exactly one `Modified` marker. -/
theorem handle_event_classification_witness :
    handle_event (Except.ok ⟨EventKind.modify ModifyKind.data, ["p"]⟩) =
      [Message.entryModified] :=
  (handle_event_classification ["p"]).2.2.2.2.1 ModifyKind.data (by decide) (by decide)

/-- C10: every state mutation of the engine either appends one new entry at
the end or deletes some existing entries in place (the result is a sublist of
the previous state); no message reorders, rewrites, or inserts between
existing entries. -/
theorem update_append_or_sublist (resolve : FsPath → IconBitmap) (s : FolderState)
    (m : Message) :
    (∃ x, updateFolderState resolve s m = s ++ [x]) ∨
    List.Sublist (updateFolderState resolve s m) s := by
  cases m with
  | newEntry p => exact Or.inl ⟨Entry.item p (resolve p), rfl⟩
  | removeEntry p => exact Or.inr (List.filter_sublist s)
  | _ => exact Or.inr (List.Sublist.refl s)

/-- C7: scanning a directory whose listing yields these per-child outcomes
produces one entry per child in listing order — `Item` for each readable
child, `Error` for each unreadable one — so the counts of `Item` and `Error`
entries equal the counts of readable and unreadable children and the total
equals the number of children; one child's failure does not abort the rest. -/
theorem init_state_scan (resolve : FsPath → IconBitmap) (folder : FsPath)
    (children : List (Except String FsPath)) :
    (init_state resolve (some folder) (Except.ok children)).length = children.length ∧
    (init_state resolve (some folder) (Except.ok children)).countP Entry.isItem =
      children.countP isOkChild ∧
    (init_state resolve (some folder) (Except.ok children)).countP Entry.isError =
      children.countP (fun r => !isOkChild r) ∧
    (∀ (i : Nat) p, children[i]? = some (Except.ok p) →
      (init_state resolve (some folder) (Except.ok children))[i]? =
        some (Entry.item p (resolve p))) ∧
    (∀ (i : Nat) msg, children[i]? = some (Except.error msg) →
      (init_state resolve (some folder) (Except.ok children))[i]? =
        some (Entry.error msg)) := by
  refine ⟨by simp [init_state], ?_, ?_, ?_, ?_⟩
  · rw [init_state, List.countP_map]
    apply List.countP_congr
    intro r _
    cases r <;> simp [Entry.isItem, isOkChild, Function.comp]
  · rw [init_state, List.countP_map]
    apply List.countP_congr
    intro r _
    cases r <;> simp [Entry.isError, isOkChild, Function.comp]
  · intro i p hi
    rw [init_state, List.getElem?_map, hi]
    rfl
  · intro i msg hi
    rw [init_state, List.getElem?_map, hi]
    rfl

/-- Witness for C7 at a concrete listing: the unreadable second child becomes
the `Error` entry at the same position. -/
theorem init_state_scan_witness :
    (init_state constResolver (some "f")
        (Except.ok [Except.ok "a", Except.error "denied"]))[1]? =
      some (Entry.error "denied") :=
  (init_state_scan constResolver "f" [Except.ok "a", Except.error "denied"]).2.2.2.2 1
    "denied" rfl

/-- C8: when the directory itself cannot be opened or listed, the state is
exactly the single `Error` entry carrying that failure's message, and nothing
else is scanned. -/
theorem init_state_dir_error (resolve : FsPath → IconBitmap) (folder : FsPath) (msg : String) :
    init_state resolve (some folder) (Except.error msg) = [Entry.error msg] := rfl

/-- C9: on a successful call, the bitmap `icon_to_rgba_image` produces has a
pixel buffer of length width × height × 4 obtained from the OS's BGRA surface
by exchanging the bytes at offsets 0 and 2 of each 4-byte pixel, leaving the
bytes at offsets 1 and 3 (green, alpha) of each pixel unchanged. -/
theorem icon_bitmap_rgba (o : GdiOracle) (w h : Nat) (px : List BGRAPixel)
    (held : List OsHandle) (hlen : px.length = w * h) (hok : o.allOk = true) :
    icon_to_rgba_image o w h (px.map BGRAPixel.bgraBytes).flatten held =
      IconCall.ok ⟨w, h, (px.map BGRAPixel.rgbaBytes).flatten⟩ held ∧
    ((px.map BGRAPixel.rgbaBytes).flatten).length = w * h * 4 := by
  rcases icon_to_rgba_spec o w h (px.map BGRAPixel.bgraBytes).flatten held with
    ⟨_, heq⟩ | ⟨hbad, _⟩
  · rw [swapBR_join] at heq
    exact ⟨heq, by rw [rgba_join_length, hlen]⟩
  · rw [hok] at hbad
    exact absurd hbad (by simp)

/-- Witness for C9 at a concrete one-pixel surface: BGRA `[1, 2, 3, 4]`
becomes RGBA `[3, 2, 1, 4]`. -/
theorem icon_bitmap_rgba_witness :
    icon_to_rgba_image allOkGdi 1 1
        (([⟨1, 2, 3, 4⟩] : List BGRAPixel).map BGRAPixel.bgraBytes).flatten [] =
      IconCall.ok ⟨1, 1, (([⟨1, 2, 3, 4⟩] : List BGRAPixel).map BGRAPixel.rgbaBytes).flatten⟩
        [] ∧
    ((([⟨1, 2, 3, 4⟩] : List BGRAPixel).map BGRAPixel.rgbaBytes).flatten).length = 1 * 1 * 4 :=
  icon_bitmap_rgba allOkGdi 1 1 [⟨1, 2, 3, 4⟩] [] (by decide) (by decide)

/-- C5 counterexample: when the shell cannot resolve an icon index for the
path (`SHGetFileInfoW` returns 0), `get_icon` hits `unimplemented!()` and
panics — the failure is process-fatal, not a recoverable per-path report. -/
theorem get_icon_unavailable_fatal :
    get_icon ⟨true, false, true, true, true, allOkGdi⟩ 1 1 [0, 0, 0, 0] =
      IconCall.panic [] := by decide

/-- C5 amended: whenever icon resolution fails for a path — the shell cannot
resolve an icon index, or any OS call in the pipeline fails — `get_icon`
panics, so the failure is process-fatal; no failing resolution returns a
recoverable per-path result. -/
theorem get_icon_failure_panics (o : ShellOracle) (w h : Nat) (surface : List Nat)
    (hbad : o.allOk = false) :
    ∃ held, get_icon o w h surface = IconCall.panic held := by
  rcases get_icon_spec o w h surface with ⟨hok, _⟩ | ⟨_, hd, heq⟩
  · rw [hbad] at hok
    exact absurd hok (by simp)
  · exact ⟨hd, heq⟩

/-- Witness for the amended C5 at a concrete failing oracle. -/
theorem get_icon_failure_panics_witness :
    ∃ held, get_icon ⟨true, true, true, false, true, allOkGdi⟩ 1 1 [0, 0, 0, 0] =
      IconCall.panic held :=
  get_icon_failure_panics ⟨true, true, true, false, true, allOkGdi⟩ 1 1 [0, 0, 0, 0] (by decide)

/-- C6 counterexample: on the failure path where `GetDIBits` fails, the call
terminates (panics) while the device context, the color bitmap and the icon
handle are all still held — acquired resources are not released on this
failure path. -/
theorem get_icon_leaks_on_failure :
    get_icon ⟨true, true, true, true, true, ⟨true, true, true, true, true, false, true, true⟩⟩
        1 1 [0, 0, 0, 0] =
      IconCall.panic [OsHandle.dc, OsHandle.color, OsHandle.icon] ∧
    [OsHandle.dc, OsHandle.color, OsHandle.icon] ≠ ([] : List OsHandle) := by decide

/-- C6 amended: every icon-resolution call either returns successfully with
every acquired handle released (an empty ledger), or panics — and on a panic
the handles acquired before the failing call are not released (see the
counterexample); release on every path holds only for the success path. -/
theorem get_icon_success_releases (o : ShellOracle) (w h : Nat) (surface : List Nat) :
    (∃ bmp, get_icon o w h surface = IconCall.ok bmp []) ∨
    (∃ held, get_icon o w h surface = IconCall.panic held) := by
  rcases get_icon_spec o w h surface with ⟨_, heq⟩ | ⟨_, hd, heq⟩
  · exact Or.inl ⟨_, heq⟩
  · exact Or.inr ⟨hd, heq⟩
